import Mathlib

/-!
Shallow embedding of the pointer-reactive typography effect engine of
`script.js` (quietloudlab.github.io).  JS numbers are modelled as `ℚ`;
the transcendental helpers `Math.sin`, `Math.cos`, `Math.sqrt` are passed
in as abstract functions `ℚ → ℚ`, so every theorem quantifying over them
holds for any interpretation of those library functions.
-/

namespace Script

/-- CONFIG.MOUSE_RANGE (script.js line 667). -/
def MOUSE_RANGE : ℚ := 400

/-- CONFIG.MOUSE_FALLOFF (line 668). -/
def MOUSE_FALLOFF : ℚ := 400

/-- CONFIG.WEIGHT.MIN (line 672). -/
def WEIGHT_MIN : ℚ := 60

/-- CONFIG.WEIGHT.MAX (line 673). -/
def WEIGHT_MAX : ℚ := 140

/-- CONFIG.WEIGHT.BASELINE (line 674). -/
def WEIGHT_BASELINE : ℚ := 60

/-- CONFIG.DISTORTION.MIN (line 677). -/
def DISTORTION_MIN : ℚ := 0

/-- CONFIG.DISTORTION.MAX (line 678). -/
def DISTORTION_MAX : ℚ := 60

/-- CONFIG.DISTORTION.BASELINE (line 679). -/
def DISTORTION_BASELINE : ℚ := 0

/-- CONFIG.TILT_SENSITIVITY (line 683). -/
def TILT_SENSITIVITY : ℚ := 60

/-- CONFIG.DECAY.CLICK (line 687). -/
def DECAY_CLICK : ℚ := 95/100

/-- CONFIG.DECAY.KEYBOARD (line 688). -/
def DECAY_KEYBOARD : ℚ := 92/100

/-- CONFIG.DECAY.ORIENTATION (line 689). -/
def DECAY_ORIENTATION : ℚ := 98/100

/-- CONFIG.DECAY.TAP (line 690). -/
def DECAY_TAP : ℚ := 92/100

/-- CONFIG.SPEED.TYPING_RESET (line 695). -/
def SPEED_TYPING_RESET : ℚ := 1000

/-- CONFIG.SPEED.TAP_RESET (line 696). -/
def SPEED_TAP_RESET : ℚ := 1000

/-- CONFIG.PERFORMANCE.FRAME_TIME_THRESHOLD (line 719). -/
def FRAME_TIME_THRESHOLD : ℚ := 50

/-- CONFIG.PERFORMANCE.ADAPTIVE_QUALITY (line 720). -/
def ADAPTIVE_QUALITY : Bool := true

/-- CONFIG.PERFORMANCE.FRAME_SKIP_THRESHOLD (line 721). -/
def FRAME_SKIP_THRESHOLD : ℚ := 1/10

/-- CONFIG.PERFORMANCE.INACTIVITY_TIMEOUT (line 722). -/
def INACTIVITY_TIMEOUT : ℚ := 2000

/-- The mutable `InteractiveState` record (script.js lines 1079-1108);
fields that the effect pipeline reads or writes. -/
structure InteractiveState where
  mouseActive : Bool
  lastMouseX : ℚ
  lastMouseY : ℚ
  mouseVelocity : ℚ
  clickEffect : ℚ
  keyboardEffect : ℚ
  lastKeyTime : ℚ
  keyCount : ℚ
  typingSpeed : ℚ
  maxTypingSpeed : ℚ
  orientationAlpha : ℚ
  orientationBeta : ℚ
  orientationGamma : ℚ
  orientationEffect : ℚ
  verticalTilt : ℚ
  horizontalTilt : ℚ
  tapEffect : ℚ
  lastTapTime : ℚ
  tapCount : ℚ
  tapSpeed : ℚ
  deriving DecidableEq, Repr

/-- The constructor defaults of `InteractiveState` (lines 1080-1107). -/
def initState : InteractiveState where
  mouseActive := false
  lastMouseX := 0
  lastMouseY := 0
  mouseVelocity := 0
  clickEffect := 0
  keyboardEffect := 0
  lastKeyTime := 0
  keyCount := 0
  typingSpeed := 0
  maxTypingSpeed := 0
  orientationAlpha := 0
  orientationBeta := 0
  orientationGamma := 0
  orientationEffect := 0
  verticalTilt := 0
  horizontalTilt := 0
  tapEffect := 0
  lastTapTime := 0
  tapCount := 0
  tapSpeed := 0

/-- `InteractiveState.updateDecay` (lines 1111-1128).  `now` stands for the
`Date.now()` reads inside the method. -/
def updateDecay (s : InteractiveState) (now : ℚ) : InteractiveState :=
  let s := { s with
    clickEffect := s.clickEffect * DECAY_CLICK
    keyboardEffect := s.keyboardEffect * DECAY_KEYBOARD
    orientationEffect := s.orientationEffect * DECAY_ORIENTATION
    tapEffect := s.tapEffect * DECAY_TAP }
  let s :=
    if now - s.lastKeyTime > SPEED_TYPING_RESET then
      { s with typingSpeed := s.typingSpeed * (98/100)
               keyCount := max 0 (s.keyCount - 1/10) }
    else s
  if now - s.lastTapTime > SPEED_TAP_RESET then
    { s with tapSpeed := s.tapSpeed * (98/100)
             tapCount := max 0 (s.tapCount - 1/10) }
  else s

/-- The document click handler (lines 1734-1737): sets `clickEffect = 1.0`. -/
def handleClick (s : InteractiveState) : InteractiveState :=
  { s with clickEffect := 1 }

/-- `InteractiveTextApp.handleKeyDown` (lines 1822-1838); `now` is `Date.now()`. -/
def handleKeyDown (s : InteractiveState) (now : ℚ) : InteractiveState :=
  let timeSinceLastKey := now - s.lastKeyTime
  let s :=
    if timeSinceLastKey < SPEED_TYPING_RESET then
      let keyCount := s.keyCount + 1
      let typingSpeed := keyCount / (timeSinceLastKey / 1000)
      { s with keyCount := keyCount
               typingSpeed := typingSpeed
               maxTypingSpeed := max s.maxTypingSpeed typingSpeed }
    else
      { s with keyCount := 1, typingSpeed := 1 }
  let speedMultiplier := min 3 (s.typingSpeed / 2)
  { s with lastKeyTime := now, keyboardEffect := 1 * speedMultiplier }

/-- `InteractiveTextApp.handleTouchStart` (lines 1840-1855). -/
def handleTouchStart (s : InteractiveState) (now : ℚ) : InteractiveState :=
  let timeSinceLastTap := now - s.lastTapTime
  let s :=
    if timeSinceLastTap < SPEED_TAP_RESET then
      let tapCount := s.tapCount + 1
      { s with tapCount := tapCount
               tapSpeed := tapCount / (timeSinceLastTap / 1000) }
    else
      { s with tapCount := 1, tapSpeed := 1 }
  let speedMultiplier := min 3 (s.tapSpeed / 2)
  { s with lastTapTime := now, tapEffect := 1 * speedMultiplier }

/-- The device-orientation listener body (lines 1386-1406).  `alpha`, `beta`,
`gamma` are the possibly-null event fields. -/
def handleOrientation (s : InteractiveState) (alpha beta gamma : Option ℚ) :
    InteractiveState :=
  let alpha := alpha.getD 0
  let beta := beta.getD 0
  let gamma := gamma.getD 0
  let validBeta := if 0 ≤ beta ∧ beta ≤ 180 then beta else 90
  let validGamma := if -180 ≤ gamma ∧ gamma ≤ 180 then gamma else 0
  let verticalTilt := min 1 (|validBeta - 90| / TILT_SENSITIVITY)
  let horizontalTilt := min 1 (|validGamma| / TILT_SENSITIVITY)
  { s with orientationAlpha := alpha
           orientationBeta := validBeta
           orientationGamma := validGamma
           verticalTilt := verticalTilt
           horizontalTilt := horizontalTilt
           orientationEffect := min 1 ((verticalTilt + horizontalTilt) / 2) }

/-- A (weight, distortion) effect pair. -/
structure Effect where
  weight : ℚ
  distortion : ℚ
  deriving DecidableEq, Repr

/-- The slice of a cached letter rect that `calculateMouseEffects` reads. -/
structure Rect where
  centerX : ℚ
  centerY : ℚ
  deriving DecidableEq, Repr

/-- `EffectCalculator.calculateMouseEffects` (lines 1133-1176).  `msin` and
`msqrt` stand for `Math.sin` and `Math.sqrt`. -/
def calculateMouseEffects (msin msqrt : ℚ → ℚ) (mouseX mouseY : ℚ)
    (letterRect : Rect) (index time : ℚ) (s : InteractiveState)
    (qualityLevel : ℚ) : Effect :=
  let dx := mouseX - letterRect.centerX
  let dy := mouseY - letterRect.centerY
  let distSquared := dx * dx + dy * dy
  if distSquared ≥ MOUSE_RANGE * MOUSE_RANGE then
    ⟨0, 0⟩
  else
    let dist := msqrt distSquared
    let falloffFactor := max 0 (1 - dist / MOUSE_FALLOFF)
    if falloffFactor < FRAME_SKIP_THRESHOLD then
      ⟨0, 0⟩
    else
      let qualityMultiplier := max (1/2) qualityLevel
      let timeIndex := time + index * (1/2)
      let timeIndex3 := time * 3 + index * (3/10)
      let waveFrequency : ℚ := if qualityLevel > 7/10 then 2 else 1
      let waveOffset := msin (timeIndex * waveFrequency) * 15 * falloffFactor * qualityMultiplier
      let bounceOffset := msin timeIndex3 * 8 * falloffFactor * qualityMultiplier
      let velocityEffect := min 20 (s.mouseVelocity * (1/10)) * falloffFactor
      let velocityWave :=
        if qualityLevel > 1/2 then
          msin (time * 8 + index * (8/10)) * velocityEffect * qualityMultiplier
        else 0
      let distRatio := dist / 8
      let baseDistortion := max 0 (DISTORTION_MAX - distRatio) * falloffFactor
      let baseWeight := max WEIGHT_MIN (WEIGHT_MAX - dist / 15) * falloffFactor
      ⟨max WEIGHT_MIN (min WEIGHT_MAX (baseWeight + bounceOffset + velocityEffect)),
       max 0 (min DISTORTION_MAX (baseDistortion + waveOffset + velocityWave))⟩

/-- `EffectCalculator.calculateBaselineEffects` (lines 1178-1232).  `msin` and
`mcos` stand for `Math.sin` and `Math.cos`. -/
def calculateBaselineEffects (msin mcos : ℚ → ℚ) (index time : ℚ)
    (s : InteractiveState) (qualityLevel : ℚ) : Effect :=
  let totalEffect := s.clickEffect + s.keyboardEffect + s.tapEffect +
    |s.verticalTilt| + |s.horizontalTilt|
  if totalEffect < FRAME_SKIP_THRESHOLD then
    ⟨WEIGHT_BASELINE, DISTORTION_BASELINE⟩
  else
    let baselineWeight := WEIGHT_BASELINE
    let baselineDistortion := DISTORTION_BASELINE
    let qualityMultiplier := max (1/2) qualityLevel
    let timeIndex := time + index * (4/10)
    let timeIndex6 := time * 6 + index * (6/10)
    let clickWave := msin (time * 12 + timeIndex) * 15 * s.clickEffect * qualityMultiplier
    let clickBounce := msin timeIndex6 * 10 * s.clickEffect * qualityMultiplier
    let chaosFactor := min 2 (s.typingSpeed / 3)
    let keyboardWave := msin (time * (20 + chaosFactor * 10) + index * (3/10)) * 25 *
      s.keyboardEffect * qualityMultiplier
    let keyboardBounce := msin (time * (8 + chaosFactor * 5) + index * (7/10)) * 15 *
      s.keyboardEffect * qualityMultiplier
    let chaosWave1 :=
      if qualityLevel > 6/10 then
        msin (time * 30 + index * (9/10)) * 10 * s.keyboardEffect * chaosFactor * qualityMultiplier
      else 0
    let chaosWave2 :=
      if qualityLevel > 6/10 then
        mcos (time * 25 + index * (2/10)) * 8 * s.keyboardEffect * chaosFactor * qualityMultiplier
      else 0
    let tapChaosFactor := min 2 (s.tapSpeed / 3)
    let tapWave := msin (time * (18 + tapChaosFactor * 8) + index * (4/10)) * 20 *
      s.tapEffect * qualityMultiplier
    let tapBounce := msin (time * (6 + tapChaosFactor * 4) + index * (8/10)) * 12 *
      s.tapEffect * qualityMultiplier
    let tapChaosWave1 :=
      if qualityLevel > 6/10 then
        msin (time * 28 + index * (7/10)) * 8 * s.tapEffect * tapChaosFactor * qualityMultiplier
      else 0
    let tapChaosWave2 :=
      if qualityLevel > 6/10 then
        mcos (time * 22 + index * (3/10)) * 6 * s.tapEffect * tapChaosFactor * qualityMultiplier
      else 0
    let orientationDistortion := min DISTORTION_MAX (s.verticalTilt * 60)
    let orientationWeight := min (WEIGHT_MAX - WEIGHT_BASELINE) (s.horizontalTilt * 80)
    ⟨baselineWeight + clickBounce + keyboardBounce + tapBounce + orientationWeight,
     baselineDistortion + clickWave + keyboardWave + chaosWave1 + chaosWave2 +
       tapWave + tapChaosWave1 + tapChaosWave2 + orientationDistortion⟩

/-- The `hasActiveEffects` test at the top of `updateLetters` (lines 1937-1941). -/
def hasActiveEffects (s : InteractiveState) : Bool :=
  s.clickEffect > 1/100 ∨ s.keyboardEffect > 1/100 ∨ s.tapEffect > 1/100 ∨
    |s.verticalTilt| > 1/100 ∨ |s.horizontalTilt| > 1/100

/-- The per-letter body of `InteractiveTextApp.updateLetters` (lines 1943-1978):
baseline effects (clamped), then mouse effects layered on top (clamped again).
`isFixed` letters get the baseline constants via `updateFixedLetter`
(lines 1885-1891). -/
def updateLetterEffect (msin mcos msqrt : ℚ → ℚ) (s : InteractiveState)
    (isFixed : Bool) (rect : Rect) (index time qualityLevel : ℚ) : Effect :=
  if isFixed then
    ⟨WEIGHT_BASELINE, DISTORTION_BASELINE⟩
  else
    let base :=
      if hasActiveEffects s then
        let b := calculateBaselineEffects msin mcos index time s qualityLevel
        Effect.mk (max WEIGHT_MIN (min WEIGHT_MAX b.weight))
          (max 0 (min DISTORTION_MAX b.distortion))
      else
        ⟨WEIGHT_BASELINE, DISTORTION_BASELINE⟩
    if s.mouseActive then
      let m := calculateMouseEffects msin msqrt s.lastMouseX s.lastMouseY rect
        index time s qualityLevel
      ⟨max WEIGHT_MIN (min WEIGHT_MAX (base.weight + m.weight)),
       max 0 (min DISTORTION_MAX (base.distortion + m.distortion))⟩
    else base

/-- Per-target renderer-bridge record: the `lastWeight` / `lastDistortion` /
`lastColor` fields of a `letterData` entry (initially absent, i.e.
`undefined` in JS), together with counters of the underlying style writes
performed on the element (the bodies of the two `if` blocks in
`updateLetterStyles`, lines 1901-1930). -/
structure LetterData where
  lastWeight : Option ℚ
  lastDistortion : Option ℚ
  lastColor : Option ℚ
  styleWrites : ℕ
  colorWrites : ℕ
  deriving DecidableEq, Repr

/-- A fresh letter entry: no value applied yet, no writes performed. -/
def LetterData.fresh : LetterData := ⟨none, none, none, 0, 0⟩

/-- `InteractiveTextApp.updateLetterStyles` (lines 1893-1931).  The style
write inside the changed-value guard (font-variation settings or the
fallback transform) is counted as one underlying write; colors are
modelled as numeric codes. -/
def updateLetterStyles (ld : LetterData) (weight distortion : ℚ)
    (color : Option ℚ := none) : LetterData :=
  let ld :=
    if ld.lastWeight ≠ some weight ∨ ld.lastDistortion ≠ some distortion then
      { ld with styleWrites := ld.styleWrites + 1
                lastWeight := some weight
                lastDistortion := some distortion }
    else ld
  match color with
  | some c =>
      if ld.lastColor ≠ some c then
        { ld with colorWrites := ld.colorWrites + 1, lastColor := some c }
      else ld
  | none => ld

/-- `PerformanceMonitor` (lines 758-797): circular buffer of the last 60
frame times, a running index, the adaptive quality level and the number of
samples collected so far. -/
structure PerformanceMonitor where
  frameTimes : ℕ → ℚ
  frameIndex : ℕ
  qualityLevel : ℚ
  frameCount : ℕ

/-- The `PerformanceMonitor` constructor (lines 759-765). -/
def PerformanceMonitor.init : PerformanceMonitor :=
  ⟨fun _ => 0, 0, 1, 0⟩

/-- `PerformanceMonitor.endFrame` (lines 771-787), taking the measured
`frameTime` of the ending frame as an argument. -/
def PerformanceMonitor.endFrame (m : PerformanceMonitor) (frameTime : ℚ) :
    PerformanceMonitor :=
  let frameTimes := Function.update m.frameTimes (m.frameIndex % 60) frameTime
  let frameIndex := (m.frameIndex + 1) % 60
  let frameCount := min (m.frameCount + 1) 60
  let qualityLevel :=
    if ADAPTIVE_QUALITY ∧ frameCount ≥ 30 then
      let avgFrameTime := (∑ i ∈ Finset.range 60, frameTimes i) / frameCount
      if avgFrameTime > FRAME_TIME_THRESHOLD * (12/10) then
        max (3/10) (m.qualityLevel * (95/100))
      else if avgFrameTime < FRAME_TIME_THRESHOLD * (8/10) then
        min 1 (m.qualityLevel * (102/100))
      else m.qualityLevel
    else m.qualityLevel
  ⟨frameTimes, frameIndex, qualityLevel, frameCount⟩

/-- A monitor state reachable from the constructor by a sequence of frames. -/
def PerformanceMonitor.Reachable (m : PerformanceMonitor) : Prop :=
  ∃ l : List ℚ, m = l.foldl PerformanceMonitor.endFrame PerformanceMonitor.init

/-- The scheduling decision at the end of each animation frame
(lines 2005-2016): `some d` means "reschedule through `setTimeout` with
delay `d`", `none` means an immediate `requestAnimationFrame`. -/
def scheduleDelay (frameTime targetFrameTime : ℚ) : Option ℚ :=
  if frameTime > targetFrameTime * (15/10) then
    some (max 0 (targetFrameTime - frameTime))
  else none

/-- The per-app scheduler fields read by `shouldAnimate` and the tick loop. -/
structure AppState where
  isVisible : Bool
  isActive : Bool
  lastActivityTime : ℚ
  frameSkipCounter : ℕ
  state : InteractiveState
  deriving DecidableEq, Repr

/-- `InteractiveTextApp.handleVisibilityChange` (lines 1760-1763): `hidden`
is `document.hidden`; `now` is the `Date.now()` of `updateActivity`. -/
def handleVisibilityChange (a : AppState) (hidden : Bool) (now : ℚ) : AppState :=
  { a with isVisible := !hidden, lastActivityTime := now }

/-- `InteractiveTextApp.shouldAnimate` (lines 2022-2047): returns the
decision together with the updated `frameSkipCounter`. -/
def shouldAnimate (a : AppState) (now : ℚ) : Bool × AppState :=
  if !a.isVisible then (false, a)
  else if !a.isActive then (false, a)
  else
    let timeSinceActivity := now - a.lastActivityTime
    if timeSinceActivity > INACTIVITY_TIMEOUT then
      let c := a.frameSkipCounter + 1
      if c < 10 then (false, { a with frameSkipCounter := c })
      else (true, { a with frameSkipCounter := 0 })
    else (true, { a with frameSkipCounter := 0 })

/-- What one execution of the `animate` callback (lines 1982-2017) did:
the resulting app state, whether the computation phase ran
(`state.updateDecay()` plus `updateLetters`, hence all
`EffectCalculator` invocations), and whether a next tick was scheduled. -/
structure TickTrace where
  app : AppState
  computed : Bool
  rescheduled : Bool
  deriving DecidableEq, Repr

/-- One execution of the `animate` callback (lines 1982-2017).  `now` is the
wall-clock time used by `shouldAnimate`; `decayNow` the `Date.now()` reads in
`updateDecay`.  The per-letter style application is not replayed here: only
the state mutation and the control flow (skip vs compute, rescheduling) are
traced. -/
def animateTick (a : AppState) (now decayNow : ℚ) : TickTrace :=
  let (go, a1) := shouldAnimate a now
  if go then
    { app := { a1 with state := updateDecay a1.state decayNow }
      computed := true
      rescheduled := true }
  else
    { app := a1, computed := false, rescheduled := true }

/-- Iterated animation ticks with arbitrary tick times
(`nows k`, `decayNows k` for the `k`-th tick). -/
def tickStream (nows decayNows : ℕ → ℚ) (a : AppState) : ℕ → AppState
  | 0 => a
  | n + 1 => (animateTick (tickStream nows decayNows a n) (nows n) (decayNows n)).app

/-- Iterated decay ticks with arbitrary tick times (for claims about
repeated `updateDecay` with no intervening input events). -/
def decayRun (ts : ℕ → ℚ) (s : InteractiveState) : ℕ → InteractiveState
  | 0 => s
  | n + 1 => updateDecay (decayRun ts s n) (ts n)

/-! ### Helper lemmas -/

/-- A two-sided clamp `max lo (min hi x)` lands in `[lo, hi]`. -/
lemma clamp_mem (lo hi x : ℚ) (h : lo ≤ hi) :
    lo ≤ max lo (min hi x) ∧ max lo (min hi x) ≤ hi :=
  ⟨le_max_left _ _, max_le h (min_le_left _ _)⟩

/-- `updateDecay` multiplies each of the four impulse amplitudes by its
configured decay factor, independently of the clock reads. -/
lemma updateDecay_amplitudes (s : InteractiveState) (now : ℚ) :
    (updateDecay s now).clickEffect = s.clickEffect * DECAY_CLICK ∧
    (updateDecay s now).keyboardEffect = s.keyboardEffect * DECAY_KEYBOARD ∧
    (updateDecay s now).orientationEffect = s.orientationEffect * DECAY_ORIENTATION ∧
    (updateDecay s now).tapEffect = s.tapEffect * DECAY_TAP := by
  simp only [updateDecay]
  split_ifs <;> exact ⟨rfl, rfl, rfl, rfl⟩

/-- After `n` decay ticks each amplitude is the initial amplitude times the
`n`-th power of its decay factor. -/
lemma decayRun_amplitudes (ts : ℕ → ℚ) (s : InteractiveState) (n : ℕ) :
    (decayRun ts s n).clickEffect = s.clickEffect * DECAY_CLICK ^ n ∧
    (decayRun ts s n).keyboardEffect = s.keyboardEffect * DECAY_KEYBOARD ^ n ∧
    (decayRun ts s n).orientationEffect = s.orientationEffect * DECAY_ORIENTATION ^ n ∧
    (decayRun ts s n).tapEffect = s.tapEffect * DECAY_TAP ^ n := by
  induction n with
  | zero => simp [decayRun]
  | succ n ih =>
      obtain ⟨h1, h2, h3, h4⟩ := ih
      obtain ⟨g1, g2, g3, g4⟩ :=
        updateDecay_amplitudes (decayRun ts s n) (ts n)
      refine ⟨?_, ?_, ?_, ?_⟩ <;>
        simp only [decayRun, g1, g2, g3, g4, h1, h2, h3, h4, pow_succ] <;> ring

/-- A geometric sequence `c * r ^ n` with `0 ≤ c`, `0 ≤ r ≤ 1` is
non-negative and non-increasing. -/
lemma geom_nonneg_antitone (c r : ℚ) (hc : 0 ≤ c) (hr0 : 0 ≤ r) (hr1 : r ≤ 1)
    (n : ℕ) : 0 ≤ c * r ^ n ∧ c * r ^ (n + 1) ≤ c * r ^ n := by
  refine ⟨mul_nonneg hc (pow_nonneg hr0 n), ?_⟩
  exact mul_le_mul_of_nonneg_left (pow_le_pow_of_le_one hr0 hr1 (Nat.le_succ n)) hc

/-- A geometric sequence `c * r ^ n` with `0 ≤ c`, `0 ≤ r < 1` eventually
stays below any positive bound. -/
lemma geom_eventually_small (c r : ℚ) (hc : 0 ≤ c) (hr0 : 0 ≤ r) (hr1 : r < 1)
    (ε : ℚ) (hε : 0 < ε) : ∃ N, ∀ n ≥ N, c * r ^ n < ε := by
  have hc1 : (0:ℚ) < c + 1 := by linarith
  obtain ⟨N, hN⟩ := exists_pow_lt_of_lt_one (x := ε / (c + 1)) (div_pos hε hc1) hr1
  refine ⟨N, fun n hn => ?_⟩
  have h1 : r ^ n ≤ r ^ N := pow_le_pow_of_le_one hr0 hr1.le hn
  have h2 : c * r ^ n ≤ c * (ε / (c + 1)) :=
    mul_le_mul_of_nonneg_left (h1.trans hN.le) hc
  have h3 : c * (ε / (c + 1)) < ε := by
    rw [mul_div_assoc']
    rw [div_lt_iff₀ hc1]
    nlinarith
  exact h2.trans_lt h3

/-! ### Claims -/

/-- Claim C1: for every letter target and every state, after the combination
step of the per-tick update (baseline effects plus mouse effects in
`InteractiveTextApp.updateLetters`), the resulting weight lies in
`[WEIGHT.MIN, WEIGHT.MAX]` and the resulting distortion in
`[0, DISTORTION.MAX]`, for arbitrary impulse, tilt and pointer
contributions and any interpretation of `Math.sin` / `Math.cos` /
`Math.sqrt`. -/
theorem updateLetters_combination_bounds (msin mcos msqrt : ℚ → ℚ)
    (s : InteractiveState) (isFixed : Bool) (rect : Rect)
    (index time qualityLevel : ℚ) :
    WEIGHT_MIN ≤ (updateLetterEffect msin mcos msqrt s isFixed rect index time qualityLevel).weight ∧
    (updateLetterEffect msin mcos msqrt s isFixed rect index time qualityLevel).weight ≤ WEIGHT_MAX ∧
    0 ≤ (updateLetterEffect msin mcos msqrt s isFixed rect index time qualityLevel).distortion ∧
    (updateLetterEffect msin mcos msqrt s isFixed rect index time qualityLevel).distortion ≤ DISTORTION_MAX := by
  simp only [updateLetterEffect]
  split_ifs <;>
    exact ⟨by norm_num [WEIGHT_BASELINE, WEIGHT_MIN, WEIGHT_MAX],
           by norm_num [WEIGHT_BASELINE, WEIGHT_MIN, WEIGHT_MAX],
           by norm_num [DISTORTION_BASELINE, DISTORTION_MAX],
           by norm_num [DISTORTION_BASELINE, DISTORTION_MAX]⟩

/-- Claim C2: whenever the squared distance from the pointer to the target
center is at least `MOUSE_RANGE²` (an inclusive threshold),
`EffectCalculator.calculateMouseEffects` returns exactly the zero effect. -/
theorem calculateMouseEffects_out_of_range_zero (msin msqrt : ℚ → ℚ)
    (mouseX mouseY : ℚ) (letterRect : Rect) (index time : ℚ)
    (s : InteractiveState) (qualityLevel : ℚ)
    (h : (mouseX - letterRect.centerX) * (mouseX - letterRect.centerX) +
         (mouseY - letterRect.centerY) * (mouseY - letterRect.centerY) ≥
         MOUSE_RANGE * MOUSE_RANGE) :
    calculateMouseEffects msin msqrt mouseX mouseY letterRect index time s
      qualityLevel = ⟨0, 0⟩ := by
  unfold calculateMouseEffects
  rw [if_pos h]

/-- Witness for C2: a pointer at distance 500 (squared distance 250000 ≥
160000 = 400²) from a target centered at the origin gets the zero effect. -/
theorem calculateMouseEffects_out_of_range_zero_witness :
    (500 - (Rect.mk 0 0).centerX) * (500 - (Rect.mk 0 0).centerX) +
      (0 - (Rect.mk 0 0).centerY) * (0 - (Rect.mk 0 0).centerY) ≥
      MOUSE_RANGE * MOUSE_RANGE ∧
    calculateMouseEffects (fun _ => 0) (fun _ => 0) 500 0 (Rect.mk 0 0) 0 0
      initState 1 = ⟨0, 0⟩ := by
  refine ⟨by norm_num [MOUSE_RANGE], ?_⟩
  exact calculateMouseEffects_out_of_range_zero (fun _ => 0) (fun _ => 0) 500 0
    (Rect.mk 0 0) 0 0 initState 1 (by norm_num [MOUSE_RANGE])

/-- Claim C10: every output of `EffectCalculator.calculateMouseEffects` is
either exactly the zero effect (whose weight 0 lies below `WEIGHT.MIN`) or
satisfies `WEIGHT.MIN ≤ weight ≤ WEIGHT.MAX` and
`0 ≤ distortion ≤ DISTORTION.MAX`; no other outputs are possible. -/
theorem calculateMouseEffects_range_invariant (msin msqrt : ℚ → ℚ)
    (mouseX mouseY : ℚ) (letterRect : Rect) (index time : ℚ)
    (s : InteractiveState) (qualityLevel : ℚ) :
    calculateMouseEffects msin msqrt mouseX mouseY letterRect index time s
        qualityLevel = ⟨0, 0⟩ ∨
    (WEIGHT_MIN ≤ (calculateMouseEffects msin msqrt mouseX mouseY letterRect index time s qualityLevel).weight ∧
     (calculateMouseEffects msin msqrt mouseX mouseY letterRect index time s qualityLevel).weight ≤ WEIGHT_MAX ∧
     0 ≤ (calculateMouseEffects msin msqrt mouseX mouseY letterRect index time s qualityLevel).distortion ∧
     (calculateMouseEffects msin msqrt mouseX mouseY letterRect index time s qualityLevel).distortion ≤ DISTORTION_MAX) := by
  have hw : WEIGHT_MIN ≤ WEIGHT_MAX := by norm_num [WEIGHT_MIN, WEIGHT_MAX]
  have hd : (0:ℚ) ≤ DISTORTION_MAX := by norm_num [DISTORTION_MAX]
  simp only [calculateMouseEffects]
  split_ifs <;>
    first
      | exact Or.inl rfl
      | exact Or.inr ⟨(clamp_mem _ _ _ hw).1, (clamp_mem _ _ _ hw).2,
          (clamp_mem _ _ _ hd).1, (clamp_mem _ _ _ hd).2⟩

/-- Claim C5: starting from non-negative amplitudes, repeated `updateDecay`
ticks with no intervening bursts keep every impulse amplitude (clickEffect,
keyboardEffect, orientationEffect, tapEffect) non-negative and
non-increasing, and drive each below any positive bound eventually. -/
theorem decay_amplitudes_monotone_to_zero (ts : ℕ → ℚ) (s : InteractiveState)
    (hc : 0 ≤ s.clickEffect) (hk : 0 ≤ s.keyboardEffect)
    (ho : 0 ≤ s.orientationEffect) (ht : 0 ≤ s.tapEffect) :
    (∀ n, 0 ≤ (decayRun ts s n).clickEffect ∧
      (decayRun ts s (n + 1)).clickEffect ≤ (decayRun ts s n).clickEffect) ∧
    (∀ n, 0 ≤ (decayRun ts s n).keyboardEffect ∧
      (decayRun ts s (n + 1)).keyboardEffect ≤ (decayRun ts s n).keyboardEffect) ∧
    (∀ n, 0 ≤ (decayRun ts s n).orientationEffect ∧
      (decayRun ts s (n + 1)).orientationEffect ≤ (decayRun ts s n).orientationEffect) ∧
    (∀ n, 0 ≤ (decayRun ts s n).tapEffect ∧
      (decayRun ts s (n + 1)).tapEffect ≤ (decayRun ts s n).tapEffect) ∧
    (∀ ε : ℚ, 0 < ε → ∃ N, ∀ n ≥ N,
      (decayRun ts s n).clickEffect < ε ∧ (decayRun ts s n).keyboardEffect < ε ∧
      (decayRun ts s n).orientationEffect < ε ∧ (decayRun ts s n).tapEffect < ε) := by
  have amp := decayRun_amplitudes ts s
  refine ⟨fun n => ?_, fun n => ?_, fun n => ?_, fun n => ?_, fun ε hε => ?_⟩
  · rw [(amp n).1, (amp (n + 1)).1]
    exact (geom_nonneg_antitone _ _ hc (by norm_num [DECAY_CLICK])
      (by norm_num [DECAY_CLICK]) n).symm.symm
  · rw [(amp n).2.1, (amp (n + 1)).2.1]
    exact geom_nonneg_antitone _ _ hk (by norm_num [DECAY_KEYBOARD])
      (by norm_num [DECAY_KEYBOARD]) n
  · rw [(amp n).2.2.1, (amp (n + 1)).2.2.1]
    exact geom_nonneg_antitone _ _ ho (by norm_num [DECAY_ORIENTATION])
      (by norm_num [DECAY_ORIENTATION]) n
  · rw [(amp n).2.2.2, (amp (n + 1)).2.2.2]
    exact geom_nonneg_antitone _ _ ht (by norm_num [DECAY_TAP])
      (by norm_num [DECAY_TAP]) n
  · obtain ⟨N1, hN1⟩ := geom_eventually_small s.clickEffect DECAY_CLICK hc
      (by norm_num [DECAY_CLICK]) (by norm_num [DECAY_CLICK]) ε hε
    obtain ⟨N2, hN2⟩ := geom_eventually_small s.keyboardEffect DECAY_KEYBOARD hk
      (by norm_num [DECAY_KEYBOARD]) (by norm_num [DECAY_KEYBOARD]) ε hε
    obtain ⟨N3, hN3⟩ := geom_eventually_small s.orientationEffect DECAY_ORIENTATION ho
      (by norm_num [DECAY_ORIENTATION]) (by norm_num [DECAY_ORIENTATION]) ε hε
    obtain ⟨N4, hN4⟩ := geom_eventually_small s.tapEffect DECAY_TAP ht
      (by norm_num [DECAY_TAP]) (by norm_num [DECAY_TAP]) ε hε
    refine ⟨max (max N1 N2) (max N3 N4), fun n hn => ?_⟩
    have l1 : N1 ≤ n := le_trans (le_max_left _ _) (le_trans (le_max_left _ _) hn)
    have l2 : N2 ≤ n := le_trans (le_max_right _ _) (le_trans (le_max_left _ _) hn)
    have l3 : N3 ≤ n := le_trans (le_max_left _ _) (le_trans (le_max_right _ _) hn)
    have l4 : N4 ≤ n := le_trans (le_max_right _ _) (le_trans (le_max_right _ _) hn)
    rw [(amp n).1, (amp n).2.1, (amp n).2.2.1, (amp n).2.2.2]
    exact ⟨hN1 n l1, hN2 n l2, hN3 n l3, hN4 n l4⟩

/-- Witness for C5, applied at a freshly clicked initial state with constant
tick times. -/
theorem decay_amplitudes_monotone_to_zero_witness :
    0 ≤ (handleClick initState).clickEffect ∧
    0 ≤ (decayRun (fun _ => 0) (handleClick initState) 2).clickEffect := by
  refine ⟨by norm_num [handleClick, initState], ?_⟩
  exact ((decay_amplitudes_monotone_to_zero (fun _ => 0) (handleClick initState)
    (by norm_num [handleClick, initState]) (by norm_num [handleClick, initState])
    (by norm_num [handleClick, initState]) (by norm_num [handleClick, initState])).1 2).1

/-- Claim C6: starting from the click handler's `clickEffect = 1.0`,
exactly 10 decay ticks with `DECAY.CLICK = 0.95` and no further clicks leave
`clickEffect = 0.95 ^ 10`, which is within `0.001` of `0.599`. -/
theorem click_decay_ten_ticks (ts : ℕ → ℚ) (s : InteractiveState) :
    (decayRun ts (handleClick s) 10).clickEffect = DECAY_CLICK ^ 10 ∧
    |DECAY_CLICK ^ 10 - 599/1000| < 1/1000 := by
  constructor
  · have h := (decayRun_amplitudes ts (handleClick s) 10).1
    rw [h]
    simp [handleClick]
  · rw [abs_sub_lt_iff]
    norm_num [DECAY_CLICK]

/-- Counterexample to claim C3 as stated: two key presses 100ms apart drive
`keyboardEffect` to `3`, outside `[0,1]` (the handler multiplies the unit
burst by `min(3, typingSpeed / 2)`). -/
theorem impulse_amplitude_unit_interval_cex :
    (handleKeyDown (handleKeyDown initState 2000) 2100).keyboardEffect = 3 ∧
    ¬ (handleKeyDown (handleKeyDown initState 2000) 2100).keyboardEffect ≤ 1 := by
  constructor <;> norm_num [handleKeyDown, initState, SPEED_TYPING_RESET]

/-- Claim C3 amended: under a monotone clock, every amplitude-writing
operation keeps the impulse amplitudes within `[0,3]`: the click handler and
the orientation handler stay within `[0,1]`, the keyboard and touch handlers
within `[0,3]` (their speed multiplier is capped at 3, not 1), and a decay
tick preserves `[0,3]` for each amplitude. -/
theorem impulse_amplitude_bounds (s : InteractiveState) (now : ℚ)
    (alpha beta gamma : Option ℚ)
    (hkc : 0 ≤ s.keyCount) (hkt : s.lastKeyTime ≤ now)
    (htc : 0 ≤ s.tapCount) (htt : s.lastTapTime ≤ now) :
    ((handleClick s).clickEffect = 1) ∧
    (0 ≤ (handleKeyDown s now).keyboardEffect ∧
      (handleKeyDown s now).keyboardEffect ≤ 3) ∧
    (0 ≤ (handleTouchStart s now).tapEffect ∧
      (handleTouchStart s now).tapEffect ≤ 3) ∧
    (0 ≤ (handleOrientation s alpha beta gamma).orientationEffect ∧
      (handleOrientation s alpha beta gamma).orientationEffect ≤ 1) ∧
    (0 ≤ s.clickEffect → s.clickEffect ≤ 3 →
      0 ≤ (updateDecay s now).clickEffect ∧ (updateDecay s now).clickEffect ≤ 3) ∧
    (0 ≤ s.keyboardEffect → s.keyboardEffect ≤ 3 →
      0 ≤ (updateDecay s now).keyboardEffect ∧ (updateDecay s now).keyboardEffect ≤ 3) ∧
    (0 ≤ s.orientationEffect → s.orientationEffect ≤ 3 →
      0 ≤ (updateDecay s now).orientationEffect ∧ (updateDecay s now).orientationEffect ≤ 3) ∧
    (0 ≤ s.tapEffect → s.tapEffect ≤ 3 →
      0 ≤ (updateDecay s now).tapEffect ∧ (updateDecay s now).tapEffect ≤ 3) := by
  obtain ⟨d1, d2, d3, d4⟩ := updateDecay_amplitudes s now
  refine ⟨rfl, ?_, ?_, ?_, ?_, ?_, ?_, ?_⟩
  · simp only [handleKeyDown]
    split_ifs with h
    · constructor
      · simp only [one_mul]
        refine le_min (by norm_num) ?_
        have : (0:ℚ) ≤ (s.keyCount + 1) / ((now - s.lastKeyTime) / 1000) :=
          div_nonneg (by linarith) (div_nonneg (by linarith) (by norm_num))
        positivity
      · simp only [one_mul]
        exact min_le_left _ _
    · constructor
      · simp only [one_mul]
        refine le_min (by norm_num) (by norm_num)
      · simp only [one_mul]
        exact min_le_left _ _
  · simp only [handleTouchStart]
    split_ifs with h
    · constructor
      · simp only [one_mul]
        refine le_min (by norm_num) ?_
        have : (0:ℚ) ≤ (s.tapCount + 1) / ((now - s.lastTapTime) / 1000) :=
          div_nonneg (by linarith) (div_nonneg (by linarith) (by norm_num))
        positivity
      · simp only [one_mul]
        exact min_le_left _ _
    · constructor
      · simp only [one_mul]
        refine le_min (by norm_num) (by norm_num)
      · simp only [one_mul]
        exact min_le_left _ _
  · simp only [handleOrientation]
    constructor
    · refine le_min (by norm_num) ?_
      have hva : (0:ℚ) ≤ min 1 (|(if 0 ≤ (beta.getD 0) ∧ (beta.getD 0) ≤ 180
          then (beta.getD 0) else 90) - 90| / TILT_SENSITIVITY) :=
        le_min (by norm_num) (div_nonneg (abs_nonneg _) (by norm_num [TILT_SENSITIVITY]))
      have hvb : (0:ℚ) ≤ min 1 (|(if -180 ≤ (gamma.getD 0) ∧ (gamma.getD 0) ≤ 180
          then (gamma.getD 0) else 0)| / TILT_SENSITIVITY) :=
        le_min (by norm_num) (div_nonneg (abs_nonneg _) (by norm_num [TILT_SENSITIVITY]))
      positivity
    · exact min_le_left _ _
  · intro h0 h3
    rw [d1]
    constructor
    · exact mul_nonneg h0 (by norm_num [DECAY_CLICK])
    · nlinarith [show (0:ℚ) < DECAY_CLICK from by norm_num [DECAY_CLICK],
        show DECAY_CLICK ≤ (1:ℚ) from by norm_num [DECAY_CLICK]]
  · intro h0 h3
    rw [d2]
    constructor
    · exact mul_nonneg h0 (by norm_num [DECAY_KEYBOARD])
    · nlinarith [show (0:ℚ) < DECAY_KEYBOARD from by norm_num [DECAY_KEYBOARD],
        show DECAY_KEYBOARD ≤ (1:ℚ) from by norm_num [DECAY_KEYBOARD]]
  · intro h0 h3
    rw [d3]
    constructor
    · exact mul_nonneg h0 (by norm_num [DECAY_ORIENTATION])
    · nlinarith [show (0:ℚ) < DECAY_ORIENTATION from by norm_num [DECAY_ORIENTATION],
        show DECAY_ORIENTATION ≤ (1:ℚ) from by norm_num [DECAY_ORIENTATION]]
  · intro h0 h3
    rw [d4]
    constructor
    · exact mul_nonneg h0 (by norm_num [DECAY_TAP])
    · nlinarith [show (0:ℚ) < DECAY_TAP from by norm_num [DECAY_TAP],
        show DECAY_TAP ≤ (1:ℚ) from by norm_num [DECAY_TAP]]

/-- Witness for the amended C3, at the fresh state and time 0. -/
theorem impulse_amplitude_bounds_witness :
    0 ≤ (handleKeyDown initState 0).keyboardEffect ∧
    (handleKeyDown initState 0).keyboardEffect ≤ 3 :=
  (impulse_amplitude_bounds initState 0 none none none
    (by norm_num [initState]) (by norm_num [initState])
    (by norm_num [initState]) (by norm_num [initState])).2.1

/-- Claim C4 concerns a slip in the code: whenever the measured average
frame cost exceeds 1.5× the frame budget, the intended delay
`max 0 (targetFrameTime - frameTime)` is necessarily 0 (its argument is
negative in that branch), so the next tick is scheduled with zero delay
instead of being delayed by the shortfall. -/
theorem scheduleDelay_degradation_zero (frameTime targetFrameTime : ℚ)
    (h0 : 0 ≤ targetFrameTime) (h : frameTime > targetFrameTime * (15/10)) :
    scheduleDelay frameTime targetFrameTime = some 0 := by
  unfold scheduleDelay
  rw [if_pos h]
  have : targetFrameTime - frameTime ≤ 0 := by nlinarith
  rw [max_eq_left this]

/-- Witness for C4: with the default 20fps budget (50ms) and a measured
80ms average frame cost, the code schedules with zero delay even though the
shortfall is 30ms. -/
theorem scheduleDelay_degradation_zero_witness :
    scheduleDelay 80 50 = some 0 ∧ (80:ℚ) - 50 = 30 ∧ (30:ℚ) ≠ 0 :=
  ⟨scheduleDelay_degradation_zero 80 50 (by norm_num) (by norm_num),
    by norm_num, by norm_num⟩

/-- After any `updateLetterStyles` call the cached last-applied values match
the arguments that were just applied. -/
lemma updateLetterStyles_last (ld : LetterData) (w d : ℚ) (color : Option ℚ) :
    (updateLetterStyles ld w d color).lastWeight = some w ∧
    (updateLetterStyles ld w d color).lastDistortion = some d ∧
    ∀ c, color = some c → (updateLetterStyles ld w d color).lastColor = some c := by
  simp only [updateLetterStyles]
  by_cases h : ld.lastWeight ≠ some w ∨ ld.lastDistortion ≠ some d
  · rw [if_pos h]
    cases color with
    | none => exact ⟨rfl, rfl, fun c hc => by cases hc⟩
    | some c =>
        dsimp only
        split_ifs with hc
        · exact ⟨rfl, rfl, fun c' hc' => by cases hc'; rfl⟩
        · push_neg at hc
          exact ⟨rfl, rfl, fun c' hc' => by cases hc'; exact hc⟩
  · push_neg at h
    rw [if_neg (by push_neg; exact h)]
    cases color with
    | none => exact ⟨h.1, h.2, fun c hc => by cases hc⟩
    | some c =>
        dsimp only
        split_ifs with hc
        · exact ⟨h.1, h.2, fun c' hc' => by cases hc'; rfl⟩
        · push_neg at hc
          exact ⟨h.1, h.2, fun c' hc' => by cases hc'; exact hc⟩

/-- `updateLetterStyles` is the identity when the arguments match the cached
last-applied values. -/
lemma updateLetterStyles_noop (ld : LetterData) (w d : ℚ) (color : Option ℚ)
    (h1 : ld.lastWeight = some w) (h2 : ld.lastDistortion = some d)
    (h3 : ∀ c, color = some c → ld.lastColor = some c) :
    updateLetterStyles ld w d color = ld := by
  simp only [updateLetterStyles]
  rw [if_neg (by push_neg; exact ⟨h1, h2⟩)]
  cases color with
  | none => rfl
  | some c =>
      dsimp only
      rw [if_neg (by push_neg; exact h3 c rfl)]

/-- Claim C7: when the cached values differ from `(w, d)`, applying
`updateLetterStyles` performs exactly one underlying style write, and an
immediately repeated call with the same `(w, d)` (and color argument) is a
complete no-op. -/
theorem updateLetterStyles_idempotent (ld : LetterData) (w d : ℚ)
    (color : Option ℚ)
    (h : ld.lastWeight ≠ some w ∨ ld.lastDistortion ≠ some d) :
    updateLetterStyles (updateLetterStyles ld w d color) w d color =
      updateLetterStyles ld w d color ∧
    (updateLetterStyles ld w d color).styleWrites = ld.styleWrites + 1 := by
  obtain ⟨l1, l2, l3⟩ := updateLetterStyles_last ld w d color
  refine ⟨updateLetterStyles_noop _ _ _ _ l1 l2 l3, ?_⟩
  simp only [updateLetterStyles]
  rw [if_pos h]
  cases color with
  | none => rfl
  | some c =>
      dsimp only
      split_ifs <;> rfl

/-- Witness for C7 at a fresh letter entry and the baseline values. -/
theorem updateLetterStyles_idempotent_witness :
    (updateLetterStyles (updateLetterStyles LetterData.fresh 60 0 none) 60 0 none =
      updateLetterStyles LetterData.fresh 60 0 none) ∧
    (updateLetterStyles LetterData.fresh 60 0 none).styleWrites =
      LetterData.fresh.styleWrites + 1 :=
  updateLetterStyles_idempotent LetterData.fresh 60 0 none
    (Or.inl (by simp [LetterData.fresh]))

/-- A single `animate` execution on a hidden page leaves the app state
untouched, performs no computation, and still reschedules. -/
lemma animateTick_hidden (a : AppState) (h : a.isVisible = false)
    (now decayNow : ℚ) :
    animateTick a now decayNow = ⟨a, false, true⟩ := by
  simp [animateTick, shouldAnimate, h]

/-- Claim C8: once the page is hidden, every subsequent animation tick skips
the whole computation phase (no `updateDecay`, no `updateLetters`, hence no
`EffectCalculator` invocation) while still rescheduling, and the app state —
including the hidden flag — is unchanged by those ticks; a later visible
signal (with the window focused) makes the next tick compute again. -/
theorem hidden_ticks_skip_computation (a : AppState) (h : a.isVisible = false)
    (nows decayNows : ℕ → ℚ) :
    (∀ n, tickStream nows decayNows a n = a) ∧
    (∀ n, (animateTick (tickStream nows decayNows a n) (nows n) (decayNows n)).computed = false ∧
      (animateTick (tickStream nows decayNows a n) (nows n) (decayNows n)).rescheduled = true) ∧
    (a.isActive = true → ∀ t dt,
      (animateTick (handleVisibilityChange a false t) t dt).computed = true) := by
  have fixed : ∀ n, tickStream nows decayNows a n = a := by
    intro n
    induction n with
    | zero => rfl
    | succ n ih => simp [tickStream, ih, animateTick_hidden a h]
  refine ⟨fixed, fun n => ?_, fun hact t dt => ?_⟩
  · rw [fixed n, animateTick_hidden a h]
    exact ⟨rfl, rfl⟩
  · norm_num [animateTick, shouldAnimate, handleVisibilityChange, hact,
      INACTIVITY_TIMEOUT]

/-- Witness for C8 at a concrete hidden app state. -/
theorem hidden_ticks_skip_computation_witness :
    tickStream (fun _ => 0) (fun _ => 0)
      (AppState.mk false true 0 0 initState) 3 =
      AppState.mk false true 0 0 initState :=
  (hidden_ticks_skip_computation (AppState.mk false true 0 0 initState) rfl
    (fun _ => 0) (fun _ => 0)).1 3

/-- One `endFrame` step keeps the quality level inside `[0.3, 1]`. -/
lemma endFrame_quality_mem (m : PerformanceMonitor) (ft : ℚ)
    (h1 : 3/10 ≤ m.qualityLevel) (h2 : m.qualityLevel ≤ 1) :
    3/10 ≤ (m.endFrame ft).qualityLevel ∧ (m.endFrame ft).qualityLevel ≤ 1 := by
  simp only [PerformanceMonitor.endFrame]
  split_ifs
  · exact ⟨le_max_left _ _, max_le (by norm_num) (by nlinarith)⟩
  · exact ⟨le_min (by norm_num) (by nlinarith), min_le_left _ _⟩
  · exact ⟨h1, h2⟩
  · exact ⟨h1, h2⟩

/-- The quality bounds hold for every state reachable from the constructor. -/
lemma foldl_quality_mem (l : List ℚ) :
    ∀ m : PerformanceMonitor, 3/10 ≤ m.qualityLevel → m.qualityLevel ≤ 1 →
      3/10 ≤ (l.foldl PerformanceMonitor.endFrame m).qualityLevel ∧
      (l.foldl PerformanceMonitor.endFrame m).qualityLevel ≤ 1 := by
  induction l with
  | nil => exact fun m h1 h2 => ⟨h1, h2⟩
  | cons x xs ih =>
      intro m h1 h2
      obtain ⟨g1, g2⟩ := endFrame_quality_mem m x h1 h2
      exact ih _ g1 g2

/-- Claim C9: in every reachable `PerformanceMonitor` state the quality
level lies in `[0.3, 1]`; `endFrame` leaves it unchanged until at least 30
frame samples exist, and otherwise only rescales it by `0.95` (floored at
`0.3`) when the average frame time exceeds `1.2 ×` the threshold, or by
`1.02` (capped at `1`) when it is below `0.8 ×` the threshold. -/
theorem quality_level_invariant (m : PerformanceMonitor)
    (h : m.Reachable) (ft : ℚ) :
    (3/10 ≤ m.qualityLevel ∧ m.qualityLevel ≤ 1) ∧
    (3/10 ≤ (m.endFrame ft).qualityLevel ∧ (m.endFrame ft).qualityLevel ≤ 1) ∧
    (min (m.frameCount + 1) 60 < 30 →
      (m.endFrame ft).qualityLevel = m.qualityLevel) ∧
    ((m.endFrame ft).qualityLevel = m.qualityLevel ∨
      (m.endFrame ft).qualityLevel = max (3/10) (m.qualityLevel * (95/100)) ∨
      (m.endFrame ft).qualityLevel = min 1 (m.qualityLevel * (102/100))) ∧
    (min (m.frameCount + 1) 60 ≥ 30 →
      ((∑ i ∈ Finset.range 60, Function.update m.frameTimes (m.frameIndex % 60) ft i) /
          (min (m.frameCount + 1) 60 : ℕ) > FRAME_TIME_THRESHOLD * (12/10) →
        (m.endFrame ft).qualityLevel = max (3/10) (m.qualityLevel * (95/100))) ∧
      ((∑ i ∈ Finset.range 60, Function.update m.frameTimes (m.frameIndex % 60) ft i) /
          (min (m.frameCount + 1) 60 : ℕ) < FRAME_TIME_THRESHOLD * (8/10) →
        (m.endFrame ft).qualityLevel = min 1 (m.qualityLevel * (102/100)))) := by
  obtain ⟨l, rfl⟩ := h
  have bounds := foldl_quality_mem l PerformanceMonitor.init
    (by norm_num [PerformanceMonitor.init]) (by norm_num [PerformanceMonitor.init])
  set m := l.foldl PerformanceMonitor.endFrame PerformanceMonitor.init with hm
  refine ⟨bounds, endFrame_quality_mem m ft bounds.1 bounds.2, ?_, ?_, ?_⟩
  · intro hlt
    simp only [PerformanceMonitor.endFrame]
    rw [if_neg]
    rintro ⟨-, hge⟩
    omega
  · simp only [PerformanceMonitor.endFrame]
    split_ifs
    · exact Or.inr (Or.inl rfl)
    · exact Or.inr (Or.inr rfl)
    · exact Or.inl rfl
    · exact Or.inl rfl
  · intro h30
    constructor
    · intro havg
      simp only [PerformanceMonitor.endFrame]
      rw [if_pos ⟨by simp [ADAPTIVE_QUALITY], h30⟩, if_pos havg]
    · intro havg
      have hno : ¬ ((∑ i ∈ Finset.range 60,
          Function.update m.frameTimes (m.frameIndex % 60) ft i) /
          (min (m.frameCount + 1) 60 : ℕ) > FRAME_TIME_THRESHOLD * (12/10)) := by
        simp only [FRAME_TIME_THRESHOLD] at havg ⊢
        push_neg
        linarith
      simp only [PerformanceMonitor.endFrame]
      rw [if_pos ⟨by simp [ADAPTIVE_QUALITY], h30⟩, if_neg hno, if_pos havg]

/-- Witness for C9 at the constructor state (reachable by the empty frame
history) and a zero-cost frame. -/
theorem quality_level_invariant_witness :
    3/10 ≤ PerformanceMonitor.init.qualityLevel ∧
    PerformanceMonitor.init.qualityLevel ≤ 1 :=
  (quality_level_invariant PerformanceMonitor.init ⟨[], rfl⟩ 0).1

end Script
